import Mathlib

/-!
Shallow embedding of the MCP weather server (src/src/auth.py, src/src/http_server.py,
src/src/server.py, src/src/tools/weather.py) and verification of its specification claims.

Conventions of the embedding:
* Python dict lookups `d.get(k)` become `Option` fields; `d.get(k, default)` becomes
  `Option.getD`.
* Python truthiness of a string (`if not s`) is `s = ""` after `getD ""`; truthiness of a
  dict is emptiness of its modelled contents.
* Raised `HTTPException(status, detail)` becomes `Except.error (HTTPError.mk status detail)`.
* `random.randint(lo, hi)` draws are passed in explicitly as fields of a `Draws` record;
  the randint contract (`lo ≤ draw ≤ hi`) is a hypothesis of the theorems that need it.
* `datetime.now()` / timestamps are passed in explicitly as integers (seconds).
* Outbound network fetches are passed in as an `Option` response (none = network failure),
  and each function reports how many outbound fetches it issued.
-/

/-- A FastAPI `HTTPException(status_code, detail)`. -/
structure HTTPError where
  status : Nat
  detail : String
deriving DecidableEq

namespace Weather

/-- The outcomes of the `random.randint` / `random.choice` calls made by one run of
`WeatherTool.execute` (src/src/tools/weather.py, lines 44-77), listed in call order. -/
structure Draws where
  temp : Int
  cond : Nat
  humidity : Int
  wind_speed : Int
  pressure : Int
  visibility : Int
  uv_index : Int
  cond1 : Nat
  f1highOff : Int
  f1lowOff : Int
  cond2 : Nat
  f2highOff : Int
  f2lowOff : Int
deriving DecidableEq

/-- `weather_conditions` (src/src/tools/weather.py, lines 38-41). -/
def weather_conditions : List String :=
  ["ensoleillé", "nuageux", "pluvieux", "orageux",
   "partiellement nuageux", "brumeux", "neigeux"]

/-- The randint/choice contract for one run of `execute` with the given `unit`:
each drawn value lies in the range the code requests on the branch taken. -/
def DrawsValid (unit : String) (d : Draws) : Prop :=
  (if unit = "fahrenheit" then 32 ≤ d.temp ∧ d.temp ≤ 95 else 0 ≤ d.temp ∧ d.temp ≤ 35) ∧
  d.cond < 7 ∧ (30 ≤ d.humidity ∧ d.humidity ≤ 90) ∧
  (5 ≤ d.wind_speed ∧ d.wind_speed ≤ 30) ∧ (980 ≤ d.pressure ∧ d.pressure ≤ 1030) ∧
  (5 ≤ d.visibility ∧ d.visibility ≤ 15) ∧ (1 ≤ d.uv_index ∧ d.uv_index ≤ 10) ∧
  d.cond1 < 7 ∧ (-5 ≤ d.f1highOff ∧ d.f1highOff ≤ 5) ∧ (5 ≤ d.f1lowOff ∧ d.f1lowOff ≤ 15) ∧
  d.cond2 < 7 ∧ (-8 ≤ d.f2highOff ∧ d.f2highOff ≤ 8) ∧ (3 ≤ d.f2lowOff ∧ d.f2lowOff ≤ 12)

instance (unit : String) (d : Draws) : Decidable (DrawsValid unit d) := by
  unfold DrawsValid; infer_instance

/-- One entry of the fake two-day forecast. -/
structure ForecastEntry where
  day : String
  high : Int
  low : Int
  condition : String
deriving DecidableEq

/-- The `weather_data` dict built by `execute` (src/src/tools/weather.py, lines 52-78). -/
structure WeatherData where
  city : String
  temperature : Int
  unit : String
  condition : String
  humidity : Int
  wind_speed : Int
  wind_unit : String
  pressure : Int
  visibility : Int
  uv_index : Int
  timestamp : String
  forecast : List ForecastEntry
deriving DecidableEq

/-- The dict returned by `execute` (src/src/tools/weather.py, lines 80-84). -/
structure ExecResult where
  success : Bool
  data : WeatherData
  message : String
deriving DecidableEq

/-- `WeatherTool.execute(city, unit)` (src/src/tools/weather.py, lines 33-84), with the
random draws `d` and the current timestamp string passed in explicitly. -/
def execute (city unit : String) (d : Draws) (timestamp : String) : ExecResult :=
  let tempUnit := if unit = "fahrenheit" then ("°F" : String) else "°C"
  { success := true
    data :=
      { city := city
        temperature := d.temp
        unit := tempUnit
        condition := (weather_conditions.get? d.cond).getD ""
        humidity := d.humidity
        wind_speed := d.wind_speed
        wind_unit := "km/h"
        pressure := d.pressure
        visibility := d.visibility
        uv_index := d.uv_index
        timestamp := timestamp
        forecast :=
          [{ day := "Demain", high := d.temp + d.f1highOff, low := d.temp - d.f1lowOff,
             condition := (weather_conditions.get? d.cond1).getD "" },
           { day := "Après-demain", high := d.temp + d.f2highOff, low := d.temp - d.f2lowOff,
             condition := (weather_conditions.get? d.cond2).getD "" }] }
    message := "Données météo récupérées pour " ++ city }

end Weather

namespace MCPServer

/-- The `arguments` dict of a tool call: only `city` and `unit` are ever read. -/
structure Args where
  city : Option String
  unit : Option String
deriving DecidableEq

/-- One `TextContent` produced by the stdio `handle_call_tool`: its `text` is either the
JSON serialization of an object with a single `error` key, or the JSON serialization of a
full `execute` result. -/
inductive CallToolText where
  | errObj (error : String)
  | resultObj (r : Weather.ExecResult)
deriving DecidableEq

/-- `handle_call_tool(name, arguments)` (src/src/server.py, lines 35-74): returns the list
of text contents, paired with whether the weather handler (`execute`) was actually run. -/
def handle_call_tool (name : String) (args : Args) (d : Weather.Draws)
    (timestamp : String) : List CallToolText × Bool :=
  if name = "get_weather" then
    let city := args.city.getD ""
    let unit := args.unit.getD "celsius"
    if city = "" then
      ([.errObj "Le paramètre 'city' est requis"], false)
    else
      ([.resultObj (Weather.execute city unit d timestamp)], true)
  else
    ([.errObj ("Outil inconnu: " ++ name)], false)

/-- Whether a text content carries a `success: false` flag: only a serialized `execute`
result has a `success` key at all; an `errObj` payload has no such flag. -/
def carriesSuccessFalse : CallToolText → Bool
  | .errObj _ => false
  | .resultObj r => !r.success

/-- Whether the produced contents are exactly one error-object text. -/
def isSingleErrObj : List CallToolText → Bool
  | [.errObj _] => true
  | _ => false

end MCPServer

namespace HttpServer

/-- The `params` dict of an MCP request: only `name` and `arguments` are ever read. -/
structure Params where
  name : Option String
  arguments : MCPServer.Args
deriving DecidableEq

/-- Pydantic model `MCPRequest` (src/src/http_server.py, lines 42-47): `jsonrpc` defaults
to "2.0", `id` is a required integer, `params` defaults to the empty dict. -/
structure MCPRequest where
  id : Int
  method : String
  params : Params
deriving DecidableEq

/-- The `error` object of a JSON-RPC error envelope. -/
structure RpcError where
  code : Int
  message : String
  data : String
deriving DecidableEq

/-- The possible `result` objects the HTTP handlers build. -/
inductive RpcResult where
  /-- `handle_initialize` result (src/src/http_server.py, lines 189-198). -/
  | initResult (protocolVersion serverName serverVersion : String)
  /-- `handle_list_tools` result (src/src/http_server.py, lines 227-233): the single
  `get_weather` descriptor, recorded by its name. -/
  | toolsList (names : List String)
  /-- `handle_tool_call` success result: one text content whose `text` is the JSON
  serialization of the `execute` result (src/src/http_server.py, lines 262-273). -/
  | content (r : Weather.ExecResult)
deriving DecidableEq

/-- A JSON-RPC response body: `jsonrpc` is always "2.0", `id` echoes the request, and at
most one of `result` / `error` is populated by the handlers. -/
structure Envelope where
  id : Int
  result : Option RpcResult
  error : Option RpcError
deriving DecidableEq

/-- An HTTP response: status code plus JSON-RPC body. Plain `return`ed dicts leave
FastAPI with status 200; the explicit `JSONResponse(status_code=500, ...)` carries 500. -/
structure HttpOut where
  status : Nat
  body : Envelope
deriving DecidableEq

/-- `handle_initialize(request)` (src/src/http_server.py, lines 184-199). -/
def handle_initialize (request : MCPRequest) : HttpOut :=
  { status := 200
    body := { id := request.id
              result := some (.initResult "2024-11-05" "mcp-weather-server" "1.0.0")
              error := none } }

/-- `handle_list_tools(request)` (src/src/http_server.py, lines 202-233). -/
def handle_list_tools (request : MCPRequest) : HttpOut :=
  { status := 200
    body := { id := request.id
              result := some (.toolsList ["get_weather"])
              error := none } }

/-- `handle_tool_call(request)` (src/src/http_server.py, lines 236-287): every internal
`ValueError` is caught and turned into a JSON-RPC error object with code -32603, message
"Erreur lors de l'exécution de l'outil" and the exception text as `data`, returned with
HTTP status 200. The second component records whether `weather_tool.execute` ran. -/
def handle_tool_call (request : MCPRequest) (d : Weather.Draws)
    (timestamp : String) : HttpOut × Bool :=
  let errOut (msg : String) : HttpOut × Bool :=
    ({ status := 200
       body := { id := request.id
                 result := none
                 error := some { code := -32603
                                 message := "Erreur lors de l'exécution de l'outil"
                                 data := msg } } }, false)
  let tool_name := request.params.name.getD ""
  if tool_name = "" then
    errOut "Nom de l'outil requis"
  else if tool_name = "get_weather" then
    let city := request.params.arguments.city.getD ""
    let unit := request.params.arguments.unit.getD "celsius"
    if city = "" then
      errOut "Le paramètre 'city' est requis"
    else
      ({ status := 200
         body := { id := request.id
                   result := some (.content (Weather.execute city unit d timestamp))
                   error := none } }, true)
  else
    errOut ("Outil inconnu: " ++ tool_name)

/-- `handle_mcp_request(request)` (src/src/http_server.py, lines 152-181): dispatch on
`request.method`; an unsupported method raises `HTTPException(400, ...)`, which the
surrounding `except Exception` converts into a `JSONResponse` with HTTP status 500 whose
body is a JSON-RPC error envelope with code -32603, message "Erreur interne du serveur"
and `str(e)` (rendered "400: Méthode non supportée: <method>") as `data`. -/
def handle_mcp_request (request : MCPRequest) (d : Weather.Draws)
    (timestamp : String) : HttpOut :=
  if request.method = "tools/call" then
    (handle_tool_call request d timestamp).1
  else if request.method = "tools/list" then
    handle_list_tools request
  else if request.method = "initialize" then
    handle_initialize request
  else
    { status := 500
      body := { id := request.id
                result := none
                error := some { code := -32603
                                message := "Erreur interne du serveur"
                                data := "400: Méthode non supportée: " ++ request.method } } }

/-- The top-level names bound by executing src/src/auth.py (its classes, module-level
instances, functions and module-level configuration constants). -/
def authModuleNames : List String :=
  ["GDPRLogger", "AzureADAuth", "azure_auth", "get_current_user", "require_role",
   "GDPRCompliance", "gdpr_compliance", "security",
   "AZURE_AD_TENANT_ID", "AZURE_AD_CLIENT_ID", "AZURE_AD_CLIENT_SECRET",
   "AZURE_AD_AUTHORITY", "AZURE_AD_JWKS_URL", "AZURE_AD_TOKEN_URL", "logger"]

/-- Outcome of `from .auth import verify_azure_token` (src/src/http_server.py, lines
15-22): `HAS_AZURE_AUTH` is True exactly when src/src/auth.py binds a top-level name
`verify_azure_token`; any failure of the import (in particular an `ImportError` because
the name is absent) is caught and sets it to False. -/
def HAS_AZURE_AUTH : Bool :=
  authModuleNames.contains "verify_azure_token"

/-- The three identity-provider environment variables read by `verify_auth`
(src/src/http_server.py, lines 68-72); `none` models an unset variable. -/
structure Env where
  tenant_id : Option String
  client_id : Option String
  client_secret : Option String
deriving DecidableEq

/-- Python truthiness of `os.getenv(...)`: unset (`None`) and the empty string are falsy. -/
def envTruthy : Option String → Bool
  | none => false
  | some s => s ≠ ""

/-- Result of the `verify_auth` dependency: either the request is allowed through to the
route handler, or it is rejected with an `HTTPException` before dispatch. -/
inductive AuthOutcome where
  | allowed
  | rejected (e : HTTPError)
deriving DecidableEq

/-- `verify_auth(request)` (src/src/http_server.py, lines 65-91), parameterised by the
`HAS_AZURE_AUTH` flag, the environment, the request's `Authorization` header, and the
`verify_azure_token` function in scope (the fallback stub `fun _ => .ok ()` whenever
the module import failed). When the gate is active: a missing header or one not starting with
"Bearer " raises 401 "Token d'authentification requis"; otherwise the extracted token is
passed to `verify_azure_token`, any exception being converted to 401 "Token invalide". -/
def verify_auth (hasAzureAuth : Bool) (env : Env) (authHeader : Option String)
    (verify_azure_token : String → Except HTTPError Unit) : AuthOutcome :=
  if !(hasAzureAuth && envTruthy env.tenant_id && envTruthy env.client_id &&
        envTruthy env.client_secret) then
    .allowed
  else
    match authHeader with
    | none => .rejected ⟨401, "Token d'authentification requis"⟩
    | some h =>
        if !h.startsWith "Bearer " then
          .rejected ⟨401, "Token d'authentification requis"⟩
        else
          match verify_azure_token (((h.splitOn " ").get? 1).getD "") with
          | .ok _ => .allowed
          | .error _ => .rejected ⟨401, "Token invalide"⟩

end HttpServer

namespace Auth

/-- One record of the JWKS `keys` array: its `kid` field (possibly absent) and its key
material (the `n`/`e` numbers, abstracted to a string from which `get_public_key` builds
the PEM key). -/
structure JWK where
  kid : Option String
  material : String
deriving DecidableEq

/-- The JSON document returned by the key-discovery endpoint and held in `jwks_cache`:
its `keys` field (absent in the initial empty-dict cache) and the number of other
top-level entries. Python dict truthiness is modelled by `JWKSDoc.nonempty`. -/
structure JWKSDoc where
  keysField : Option (List JWK)
  others : Nat
deriving DecidableEq

/-- Truthiness of the cached dict: `bool({})` is False, any entry makes it True. -/
def JWKSDoc.nonempty (d : JWKSDoc) : Bool :=
  d.keysField.isSome || d.others != 0

/-- `jwks.get("keys", [])`. -/
def JWKSDoc.keys (d : JWKSDoc) : List JWK :=
  d.keysField.getD []

/-- The empty dict `{}`. -/
def emptyDoc : JWKSDoc := ⟨none, 0⟩

/-- The mutable state of an `AzureADAuth` instance: `self.jwks_cache` (initially `{}`)
and `self.jwks_cache_time` (initially `None`), the time in seconds. -/
structure AuthState where
  jwks_cache : JWKSDoc
  jwks_cache_time : Option Int
deriving DecidableEq

/-- The state set up by `AzureADAuth.__init__` (src/src/auth.py, lines 62-64). -/
def initState : AuthState := ⟨emptyDoc, none⟩

/-- Result of one `get_jwks` call: the served document or the raised `HTTPException`,
the state after the call, and the number of outbound fetches issued (0 or 1). -/
structure GetJwksResult where
  result : Except HTTPError JWKSDoc
  state : AuthState
  fetchCount : Nat

/-- `AzureADAuth.get_jwks()` (src/src/auth.py, lines 71-93): serve the cache when
`jwks_cache_time` is set, the cache is younger than 3600 seconds and the cached dict is
truthy; otherwise issue one outbound GET, modelled by `fetch` (`none` = the request or
`raise_for_status` failed, raising 503 "Service d'authentification indisponible" and
leaving the cache untouched; `some doc` = the parsed JSON body, stored with time `now`).
`cacheFresh` is the serve-from-cache condition of src/src/auth.py, lines 76-78. -/
def cacheFresh (s : AuthState) (now : Int) : Bool :=
  match s.jwks_cache_time with
  | some t => decide (now - t < 3600) && s.jwks_cache.nonempty
  | none => false

/-- See `cacheFresh` above: `AzureADAuth.get_jwks()` itself. -/
def get_jwks (s : AuthState) (now : Int) (fetch : Option JWKSDoc) : GetJwksResult :=
  if cacheFresh s now then
    ⟨.ok s.jwks_cache, s, 0⟩
  else
    match fetch with
    | some doc => ⟨.ok doc, ⟨doc, some now⟩, 1⟩
    | none => ⟨.error ⟨503, "Service d'authentification indisponible"⟩, s, 1⟩

/-- `AzureADAuth.get_public_key(token_header, jwks)` (src/src/auth.py, lines 95-123):
a falsy `kid` (absent or empty) raises 401 "Token invalide: kid manquant"; otherwise the
first key of `jwks.get("keys", [])` whose `kid` matches is turned into PEM key material;
if none matches, 401 "Clé publique non trouvée" is raised. -/
def get_public_key (kid : Option String) (jwks : JWKSDoc) : Except HTTPError String :=
  let k := kid.getD ""
  if k = "" then
    .error ⟨401, "Token invalide: kid manquant"⟩
  else
    match jwks.keys.find? (fun key => key.kid == some k) with
    | some key => .ok key.material
    | none => .error ⟨401, "Clé publique non trouvée"⟩

/-- The decoded token payload (the claims `validate_token` and `require_role` read). -/
structure Claims where
  sub : Option String
  roles : Option (List String)
  exp : Option Int
  aud : String
  iss : String
deriving DecidableEq

/-- A bearer token as the PyJWT calls see it: whether `jwt.get_unverified_header`
succeeds, the header's `kid` and `alg`, the key material under which the signature
verifies (`none`: under no key), and the payload. -/
structure Token where
  header_ok : Bool
  kid : Option String
  alg : String
  sigKey : Option String
  claims : Claims
deriving DecidableEq

/-- The PyJWT exceptions `validate_token` distinguishes. -/
inductive JwtError where
  | expiredSignature
  | invalidToken
deriving DecidableEq

/-- The configured expected values: `AZURE_AD_CLIENT_ID` (audience) and the issuer
derived from `AZURE_AD_TENANT_ID`. -/
structure Config where
  audience : String
  issuer : String
deriving DecidableEq

/-- `jwt.decode(token, public_key, algorithms=["RS256"], audience=..., issuer=...)`
(src/src/auth.py, lines 138-144), following PyJWT order: the algorithm must be in the
allowed list and the signature must verify under `public_key` before any claim is
validated; then `exp` (when present) fails with `ExpiredSignatureError` unless strictly
in the future; then issuer and audience mismatches fail with `InvalidTokenError`
subclasses. -/
def jwt_decode (tok : Token) (public_key : String) (cfg : Config) (now : Int) :
    Except JwtError Claims :=
  if tok.alg ≠ "RS256" then .error .invalidToken
  else if tok.sigKey ≠ some public_key then .error .invalidToken
  else
    match tok.claims.exp with
    | some e =>
        if e ≤ now then .error .expiredSignature
        else if tok.claims.iss ≠ cfg.issuer then .error .invalidToken
        else if tok.claims.aud ≠ cfg.audience then .error .invalidToken
        else .ok tok.claims
    | none =>
        if tok.claims.iss ≠ cfg.issuer then .error .invalidToken
        else if tok.claims.aud ≠ cfg.audience then .error .invalidToken
        else .ok tok.claims

/-- Result of one `validate_token` call: the returned claims or the raised
`HTTPException`, the auth state after the call, and the number of outbound JWKS fetches
issued. -/
structure ValidateResult where
  result : Except HTTPError Claims
  state : AuthState
  fetchCount : Nat

/-- `AzureADAuth.validate_token(token, request)` (src/src/auth.py, lines 125-166).
The whole body runs in a `try` whose handlers map `jwt.ExpiredSignatureError` to
401 "Token expiré", any other `jwt.InvalidTokenError` to 401 "Token invalide", and every
other exception — including the `HTTPException`s raised by `get_jwks`, `get_public_key`
and the body's own expiry re-check — to 401 "Erreur d'authentification". After a
successful decode, `payload.get("exp", 0) < now` raises inside the `try`, so a missing
`exp` claim (with positive `now`) ends as 401 "Erreur d'authentification"; a present
`exp` already passed the decoder's strict check, so that re-check never fires for it. -/
def validate_token (cfg : Config) (s : AuthState) (tok : Token) (now : Int)
    (fetch : Option JWKSDoc) : ValidateResult :=
  if !tok.header_ok then
    ⟨.error ⟨401, "Token invalide"⟩, s, 0⟩
  else
    let g := get_jwks s now fetch
    match g.result with
    | .error _ => ⟨.error ⟨401, "Erreur d'authentification"⟩, g.state, g.fetchCount⟩
    | .ok jwks =>
        match get_public_key tok.kid jwks with
        | .error _ => ⟨.error ⟨401, "Erreur d'authentification"⟩, g.state, g.fetchCount⟩
        | .ok public_key =>
            match jwt_decode tok public_key cfg now with
            | .error .expiredSignature =>
                ⟨.error ⟨401, "Token expiré"⟩, g.state, g.fetchCount⟩
            | .error .invalidToken =>
                ⟨.error ⟨401, "Token invalide"⟩, g.state, g.fetchCount⟩
            | .ok payload =>
                if payload.exp.getD 0 < now then
                  ⟨.error ⟨401, "Erreur d'authentification"⟩, g.state, g.fetchCount⟩
                else
                  ⟨.ok payload, g.state, g.fetchCount⟩

/-- `require_role(required_role)`'s inner `role_checker(user)` (src/src/auth.py, lines
185-195): fail with 403 unless the payload's `roles` (defaulting to the empty list)
contain the required role or "admin". -/
def require_role (required_role : String) (user : Claims) : Except HTTPError Claims :=
  let user_roles := user.roles.getD []
  if !user_roles.contains required_role && !user_roles.contains "admin" then
    .error ⟨403, "Rôle requis: " ++ required_role⟩
  else
    .ok user

/-- The `HTTPException` carried by a failed validation, if any. -/
def errorOf (v : ValidateResult) : Option HTTPError :=
  match v.result with
  | .error e => some e
  | .ok _ => none

/-- A discovery document whose `keys` array holds a single key with kid "a". -/
def docA : JWKSDoc := ⟨some [⟨some "a", "pemA"⟩], 0⟩

/-- A discovery document whose `keys` array holds keys with kids "a" and "b". -/
def docAB : JWKSDoc := ⟨some [⟨some "a", "pemA"⟩, ⟨some "b", "pemB"⟩], 0⟩

/-- A concrete expected audience/issuer configuration. -/
def cfg0 : Config := ⟨"client-id", "issuer"⟩

/-- An auth state whose cache holds `docA`, fetched at time 0. -/
def stateA : AuthState := ⟨docA, some 0⟩

/-- A well-formed token signed with key "b" (present only in `docAB`), matching
`cfg0` and expiring at time 5000. -/
def tokKidB : Token :=
  ⟨true, some "b", "RS256", some "pemB", ⟨some "user", some ["reader"], some 5000,
    "client-id", "issuer"⟩⟩

/-- A token under kid "a" whose `exp` (5) is in the past at time 100 and whose
signature verifies under no key. -/
def tokExpiredBadSig : Token :=
  ⟨true, some "a", "RS256", none, ⟨some "user", none, some 5, "client-id", "issuer"⟩⟩

/-- A token under kid "a" whose `exp` (5) is in the past at time 100 and whose
signature verifies under `docA`'s key material. -/
def tokExpiredGoodSig : Token :=
  ⟨true, some "a", "RS256", some "pemA", ⟨some "user", none, some 5, "client-id",
    "issuer"⟩⟩

/-- A token whose header decodes with kid "k"; its other fields never matter for the
cache-behaviour runs it is used in. -/
def tokKidK : Token :=
  ⟨true, some "k", "RS256", none, ⟨none, none, some 99, "client-id", "issuer"⟩⟩

/-- The auth state after a first validation from `initState` at time 0 whose outbound
fetch returned the empty JSON object: the cache holds `{}` with fetch time 0. -/
def chainState1 : AuthState :=
  (validate_token cfg0 initState tokKidK 0 (some emptyDoc)).state

/-- The auth state after a further validation from `chainState1` at time 10 whose
outbound fetch again returned the empty JSON object. -/
def chainState2 : AuthState :=
  (validate_token cfg0 chainState1 tokKidK 10 (some emptyDoc)).state

end Auth

namespace Weather

/-- A concrete outcome of the random draws, within the ranges the celsius branch asks
from `random.randint`. -/
def sampleDraws : Draws := ⟨10, 0, 50, 10, 1000, 10, 5, 1, 0, 10, 2, 0, 5⟩

/-- A concrete outcome of the random draws, within the ranges the fahrenheit branch asks
from `random.randint`. -/
def sampleDrawsF : Draws := ⟨50, 0, 50, 10, 1000, 10, 5, 1, 0, 10, 2, 0, 5⟩

end Weather

/-!
## Claim theorems
-/

/-- C9: for every claims payload and required-role string, the role guard succeeds
returning the claims if and only if the payload's role set contains the required role or
the administrative role "admin"; otherwise it fails with an insufficient-role error
carrying HTTP status 403. -/
theorem C9_require_role_spec (r : String) (u : Auth.Claims) :
    Auth.require_role r u =
      (if (u.roles.getD []).contains r || (u.roles.getD []).contains "admin" then
        .ok u
      else
        .error ⟨403, "Rôle requis: " ++ r⟩) ∧
    (Auth.require_role r u = .ok u ↔
      ((u.roles.getD []).contains r = true ∨ (u.roles.getD []).contains "admin" = true)) := by
  unfold Auth.require_role
  cases h1 : (u.roles.getD []).contains r <;>
    cases h2 : (u.roles.getD []).contains "admin" <;>
      simp at h1 h2 <;> simp [h1, h2]

/-- C10: for every city and every unit other than "fahrenheit" (including values outside
the declared enum, which are never validated), `execute` returns `success = True`,
`data.city` equal to the input city, `data.unit` = "°C" and a temperature in [0, 35] for
every outcome of the random draws; with unit "fahrenheit" the temperature is in [32, 95]
and `data.unit` = "°F". -/
theorem C10_weather_execute_ranges (city unit ts : String) (d : Weather.Draws)
    (h : Weather.DrawsValid unit d) :
    (Weather.execute city unit d ts).success = true ∧
    (Weather.execute city unit d ts).data.city = city ∧
    (unit ≠ "fahrenheit" →
      (Weather.execute city unit d ts).data.unit = "°C" ∧
      0 ≤ (Weather.execute city unit d ts).data.temperature ∧
      (Weather.execute city unit d ts).data.temperature ≤ 35) ∧
    (unit = "fahrenheit" →
      (Weather.execute city unit d ts).data.unit = "°F" ∧
      32 ≤ (Weather.execute city unit d ts).data.temperature ∧
      (Weather.execute city unit d ts).data.temperature ≤ 95) := by
  obtain ⟨htemp, -⟩ := h
  by_cases hu : unit = "fahrenheit" <;>
    simp only [hu, if_pos, if_neg, ite_true, ite_false] at htemp <;>
    simp [Weather.execute, hu, htemp.1, htemp.2]

/-- Witness for C10 at the concrete input city "Paris", unit "kelvin" (outside the
declared enum) and a concrete draw outcome. -/
theorem C10_witness :
    (Weather.execute "Paris" "kelvin" Weather.sampleDraws "t").success = true ∧
    (Weather.execute "Paris" "kelvin" Weather.sampleDraws "t").data.city = "Paris" ∧
    ("kelvin" ≠ "fahrenheit" →
      (Weather.execute "Paris" "kelvin" Weather.sampleDraws "t").data.unit = "°C" ∧
      0 ≤ (Weather.execute "Paris" "kelvin" Weather.sampleDraws "t").data.temperature ∧
      (Weather.execute "Paris" "kelvin" Weather.sampleDraws "t").data.temperature ≤ 35) ∧
    ("kelvin" = "fahrenheit" →
      (Weather.execute "Paris" "kelvin" Weather.sampleDraws "t").data.unit = "°F" ∧
      32 ≤ (Weather.execute "Paris" "kelvin" Weather.sampleDraws "t").data.temperature ∧
      (Weather.execute "Paris" "kelvin" Weather.sampleDraws "t").data.temperature ≤ 95) :=
  C10_weather_execute_ranges "Paris" "kelvin" "t" Weather.sampleDraws (by decide)

/-- C7: every tools/call invocation whose tool name is not a registered tool yields an
error object (never a thrown or unhandled fault) on both the stdio dispatch path and the
HTTP dispatch path, and the handler never runs. -/
theorem C7_unknown_tool_error (name ts : String) (args : MCPServer.Args)
    (req : HttpServer.MCPRequest) (d : Weather.Draws)
    (hname : name ≠ "get_weather") (hreq : req.params.name = some name) :
    MCPServer.isSingleErrObj (MCPServer.handle_call_tool name args d ts).1 = true ∧
    (MCPServer.handle_call_tool name args d ts).2 = false ∧
    (HttpServer.handle_tool_call req d ts).1.body.error.isSome = true ∧
    (HttpServer.handle_tool_call req d ts).1.body.result = none ∧
    (HttpServer.handle_tool_call req d ts).1.status = 200 ∧
    (HttpServer.handle_tool_call req d ts).2 = false := by
  by_cases h0 : name = "" <;>
    simp [MCPServer.handle_call_tool, HttpServer.handle_tool_call, hreq, hname, h0,
      MCPServer.isSingleErrObj]

/-- Witness for C7 at the concrete unregistered tool name "unknown". -/
theorem C7_witness :
    MCPServer.isSingleErrObj
      (MCPServer.handle_call_tool "unknown" ⟨none, none⟩ Weather.sampleDraws "t").1 = true ∧
    (MCPServer.handle_call_tool "unknown" ⟨none, none⟩ Weather.sampleDraws "t").2 = false ∧
    (HttpServer.handle_tool_call ⟨7, "tools/call", ⟨some "unknown", ⟨none, none⟩⟩⟩
        Weather.sampleDraws "t").1.body.error.isSome = true ∧
    (HttpServer.handle_tool_call ⟨7, "tools/call", ⟨some "unknown", ⟨none, none⟩⟩⟩
        Weather.sampleDraws "t").1.body.result = none ∧
    (HttpServer.handle_tool_call ⟨7, "tools/call", ⟨some "unknown", ⟨none, none⟩⟩⟩
        Weather.sampleDraws "t").1.status = 200 ∧
    (HttpServer.handle_tool_call ⟨7, "tools/call", ⟨some "unknown", ⟨none, none⟩⟩⟩
        Weather.sampleDraws "t").2 = false :=
  C7_unknown_tool_error "unknown" "t" ⟨none, none⟩
    ⟨7, "tools/call", ⟨some "unknown", ⟨none, none⟩⟩⟩ Weather.sampleDraws
    (by decide) rfl

/-- C8: for every POST /mcp request, the response — result, error, or the internal-failure
HTTP 500 envelope — carries an `id` equal to the request's `id`, and exactly one of
`result`/`error` is present. -/
theorem C8_id_echo_and_exclusivity (req : HttpServer.MCPRequest) (d : Weather.Draws)
    (ts : String) :
    (HttpServer.handle_mcp_request req d ts).body.id = req.id ∧
    ((HttpServer.handle_mcp_request req d ts).body.result.isSome = true ↔
      (HttpServer.handle_mcp_request req d ts).body.error = none) := by
  unfold HttpServer.handle_mcp_request HttpServer.handle_tool_call
    HttpServer.handle_list_tools HttpServer.handle_initialize
  dsimp only
  split_ifs <;> simp

/-- C5 counterexample: at the concrete unsupported method "foo/bar", the engine answers
with JSON-RPC error code -32603 (an internal-error envelope over HTTP 500), not the
claimed MethodNotFound code -32601. -/
theorem C5_counterexample :
    (HttpServer.handle_mcp_request ⟨1, "foo/bar", ⟨none, ⟨none, none⟩⟩⟩
        Weather.sampleDraws "t").body.error.map HttpServer.RpcError.code ≠
      some (-32601) ∧
    (HttpServer.handle_mcp_request ⟨1, "foo/bar", ⟨none, ⟨none, none⟩⟩⟩
        Weather.sampleDraws "t").body.error.map HttpServer.RpcError.code =
      some (-32603) ∧
    (HttpServer.handle_mcp_request ⟨1, "foo/bar", ⟨none, ⟨none, none⟩⟩⟩
        Weather.sampleDraws "t").status = 500 := by
  refine ⟨by decide, rfl, rfl⟩

/-- C5 (amended): every POST /mcp request whose method is not one of the supported
methods (initialize, tools/list, tools/call) is answered — not fatally — with a JSON-RPC
error envelope carrying the request's `id` and the internal-error code -32603 (message
"Erreur interne du serveur", `data` naming the unsupported method), served with HTTP
status 500, because the raised 400 "Méthode non supportée" is swallowed by the catch-all
handler. -/
theorem C5_unknown_method_error (req : HttpServer.MCPRequest) (d : Weather.Draws)
    (ts : String) (h1 : req.method ≠ "tools/call") (h2 : req.method ≠ "tools/list")
    (h3 : req.method ≠ "initialize") :
    HttpServer.handle_mcp_request req d ts =
      ⟨500, ⟨req.id, none, some ⟨-32603, "Erreur interne du serveur",
        "400: Méthode non supportée: " ++ req.method⟩⟩⟩ := by
  simp [HttpServer.handle_mcp_request, h1, h2, h3]

/-- Witness for C5 at the concrete unsupported method "foo/bar". -/
theorem C5_witness :
    HttpServer.handle_mcp_request ⟨1, "foo/bar", ⟨none, ⟨none, none⟩⟩⟩
        Weather.sampleDraws "t" =
      ⟨500, ⟨1, none, some ⟨-32603, "Erreur interne du serveur",
        "400: Méthode non supportée: " ++ "foo/bar"⟩⟩⟩ :=
  C5_unknown_method_error ⟨1, "foo/bar", ⟨none, ⟨none, none⟩⟩⟩ Weather.sampleDraws "t"
    (by decide) (by decide) (by decide)

/-- C6 counterexample: at the concrete call of "get_weather" with no `city` argument,
both dispatch paths return a failure result, but it carries no `success: false` flag as
the claim states: the stdio path returns a single `error`-keyed object (no `success` key
at all), and the HTTP path returns a JSON-RPC error object. -/
theorem C6_counterexample :
    (MCPServer.handle_call_tool "get_weather" ⟨none, none⟩ Weather.sampleDraws "t").1 =
      [.errObj "Le paramètre 'city' est requis"] ∧
    ((MCPServer.handle_call_tool "get_weather" ⟨none, none⟩ Weather.sampleDraws "t").1.all
        fun c => !MCPServer.carriesSuccessFalse c) = true ∧
    (HttpServer.handle_tool_call ⟨2, "tools/call", ⟨some "get_weather", ⟨none, none⟩⟩⟩
        Weather.sampleDraws "t").1.body.error.isSome = true ∧
    (HttpServer.handle_tool_call ⟨2, "tools/call", ⟨some "get_weather", ⟨none, none⟩⟩⟩
        Weather.sampleDraws "t").1.body.result = none := by
  refine ⟨rfl, rfl, rfl, rfl⟩

/-- C6 (amended): every tools/call invocation of "get_weather" whose `city` argument is
absent or empty returns, before the weather handler runs, a failure result distinguishable
from a success result and never an unhandled exception — on the stdio path a single text
content whose payload is an object with an `error` message (and no `success` flag), on the
HTTP path a JSON-RPC error object with code -32603 carrying the message in `data`. -/
theorem C6_missing_city_failure (ts : String) (args : MCPServer.Args)
    (req : HttpServer.MCPRequest) (d : Weather.Draws)
    (hcity : args.city.getD "" = "")
    (hname : req.params.name = some "get_weather")
    (hargs : req.params.arguments = args) :
    MCPServer.handle_call_tool "get_weather" args d ts =
      ([.errObj "Le paramètre 'city' est requis"], false) ∧
    ((MCPServer.handle_call_tool "get_weather" args d ts).1.all
        fun c => !MCPServer.carriesSuccessFalse c) = true ∧
    (HttpServer.handle_tool_call req d ts).1 =
      ⟨200, ⟨req.id, none, some ⟨-32603, "Erreur lors de l'exécution de l'outil",
        "Le paramètre 'city' est requis"⟩⟩⟩ ∧
    (HttpServer.handle_tool_call req d ts).2 = false := by
  refine ⟨?_, ?_, ?_, ?_⟩ <;>
    simp [MCPServer.handle_call_tool, HttpServer.handle_tool_call, hname, hargs, hcity,
      MCPServer.carriesSuccessFalse]

/-- Witness for C6 at the concrete call of "get_weather" with empty arguments. -/
theorem C6_witness :
    MCPServer.handle_call_tool "get_weather" ⟨none, none⟩ Weather.sampleDraws "t" =
      ([.errObj "Le paramètre 'city' est requis"], false) ∧
    ((MCPServer.handle_call_tool "get_weather" ⟨none, none⟩
        Weather.sampleDraws "t").1.all fun c => !MCPServer.carriesSuccessFalse c) = true ∧
    (HttpServer.handle_tool_call ⟨2, "tools/call", ⟨some "get_weather", ⟨none, none⟩⟩⟩
        Weather.sampleDraws "t").1 =
      ⟨200, ⟨2, none, some ⟨-32603, "Erreur lors de l'exécution de l'outil",
        "Le paramètre 'city' est requis"⟩⟩⟩ ∧
    (HttpServer.handle_tool_call ⟨2, "tools/call", ⟨some "get_weather", ⟨none, none⟩⟩⟩
        Weather.sampleDraws "t").2 = false :=
  C6_missing_city_failure "t" ⟨none, none⟩
    ⟨2, "tools/call", ⟨some "get_weather", ⟨none, none⟩⟩⟩ Weather.sampleDraws
    rfl rfl rfl

/-- C1 (code bug): the HTTP auth gate is never enforced. src/src/auth.py binds no
top-level name `verify_azure_token`, so the import in src/src/http_server.py (lines
15-22) always fails and `HAS_AZURE_AUTH` is always False — hence `verify_auth` allows
every request through, whatever the identity-provider environment variables and the
`Authorization` header are, instead of rejecting missing/malformed headers with 401 when
the configuration is present. -/
theorem C1_auth_gate_never_enforced (env : HttpServer.Env) (hdr : Option String)
    (vf : String → Except HTTPError Unit) :
    HttpServer.HAS_AZURE_AUTH = false ∧
    HttpServer.verify_auth HttpServer.HAS_AZURE_AUTH env hdr vf = .allowed := by
  have h : HttpServer.HAS_AZURE_AUTH = false := by decide
  exact ⟨h, by simp [HttpServer.verify_auth, h]⟩

/-- C2 counterexample: concrete run with a fresh, non-empty cached key set (`stateA`,
holding only kid "a", fetched at time 0) and a token signed under kid "b"; the freshly
served provider key set (`docAB`) does contain "b", yet validation at time 10 fails with
zero outbound fetches — no forced refresh is attempted — and the rejection surfaces as
the generic 401 detail, not as the key-not-found (UnknownSigningKey) one. -/
theorem C2_counterexample :
    Auth.cacheFresh Auth.stateA 10 = true ∧
    Auth.stateA.jwks_cache.keys.find? (fun k => k.kid == some "b") = none ∧
    (Auth.docAB.keys.find? (fun k => k.kid == some "b")).isSome = true ∧
    (Auth.validate_token Auth.cfg0 Auth.stateA Auth.tokKidB 10
        (some Auth.docAB)).fetchCount = 0 ∧
    Auth.errorOf (Auth.validate_token Auth.cfg0 Auth.stateA Auth.tokKidB 10
        (some Auth.docAB)) = some ⟨401, "Erreur d'authentification"⟩ := by
  refine ⟨rfl, rfl, rfl, rfl, rfl⟩

/-- C2 (amended): on a cache hit, a token whose signing-key identifier is absent from the
cached key set is rejected immediately — no forced refresh of the key set is attempted
(zero outbound fetches, cache unchanged) — and the internal key-not-found rejection is
remapped by `validate_token`'s catch-all handler to the generic 401
"Erreur d'authentification". -/
theorem C2_no_refresh_on_kid_miss (cfg : Auth.Config) (s : Auth.AuthState)
    (tok : Auth.Token) (now : Int) (fetch : Option Auth.JWKSDoc) (k : String)
    (hfresh : Auth.cacheFresh s now = true)
    (hok : tok.header_ok = true)
    (hkid : tok.kid = some k) (hk : k ≠ "")
    (hmiss : s.jwks_cache.keys.find? (fun key => key.kid == some k) = none) :
    Auth.validate_token cfg s tok now fetch =
      ⟨.error ⟨401, "Erreur d'authentification"⟩, s, 0⟩ := by
  unfold Auth.validate_token Auth.get_jwks Auth.get_public_key
  simp [hok, hfresh, hkid, hk, hmiss]

/-- Witness for C2's amended theorem at the concrete cache-hit state `stateA`. -/
theorem C2_witness :
    Auth.validate_token Auth.cfg0 Auth.stateA Auth.tokKidB 10 (some Auth.docAB) =
      ⟨.error ⟨401, "Erreur d'authentification"⟩, Auth.stateA, 0⟩ :=
  C2_no_refresh_on_kid_miss Auth.cfg0 Auth.stateA Auth.tokKidB 10 (some Auth.docAB) "b"
    rfl rfl rfl (by decide) rfl

/-- A `get_jwks` call issues at most one outbound fetch. -/
theorem get_jwks_fetch_le_one (s : Auth.AuthState) (now : Int)
    (f : Option Auth.JWKSDoc) : (Auth.get_jwks s now f).fetchCount ≤ 1 := by
  unfold Auth.get_jwks
  split_ifs
  · exact Nat.zero_le 1
  · cases f <;> simp

/-- When the token header decodes, `validate_token`'s cache state and fetch count are
exactly those of its single `get_jwks` call. -/
theorem validate_effect_of_header_ok (cfg : Auth.Config) (s : Auth.AuthState)
    (tok : Auth.Token) (now : Int) (f : Option Auth.JWKSDoc)
    (hok : tok.header_ok = true) :
    (Auth.validate_token cfg s tok now f).state = (Auth.get_jwks s now f).state ∧
    (Auth.validate_token cfg s tok now f).fetchCount =
      (Auth.get_jwks s now f).fetchCount := by
  unfold Auth.validate_token
  simp only [hok]
  repeat' split
  all_goals simp_all

/-- When the token header does not decode, `validate_token` returns before consulting the
cache: no fetch, state unchanged. -/
theorem validate_effect_of_header_bad (cfg : Auth.Config) (s : Auth.AuthState)
    (tok : Auth.Token) (now : Int) (f : Option Auth.JWKSDoc)
    (hok : tok.header_ok = false) :
    (Auth.validate_token cfg s tok now f).state = s ∧
    (Auth.validate_token cfg s tok now f).fetchCount = 0 := by
  unfold Auth.validate_token
  simp [hok]

/-- A single validation issues at most one outbound fetch. -/
theorem validate_fetch_le_one (cfg : Auth.Config) (s : Auth.AuthState)
    (tok : Auth.Token) (now : Int) (f : Option Auth.JWKSDoc) :
    (Auth.validate_token cfg s tok now f).fetchCount ≤ 1 := by
  cases hok : tok.header_ok
  · exact (validate_effect_of_header_bad cfg s tok now f hok).2 ▸ Nat.zero_le 1
  · exact (validate_effect_of_header_ok cfg s tok now f hok).2 ▸
      get_jwks_fetch_le_one s now f

/-- C3 counterexample: starting from the reachable state `chainState1` (the provider
returned the empty JSON object `{}`, cached at time 0), two validations at times 10 and
20 — both strictly inside the 1-hour freshness window of the cache (fetched at 0,
resp. 10) — issue two outbound fetches in total, because the code treats the falsy empty
cached dict as a miss and refetches on every validation. -/
theorem C3_counterexample :
    Auth.chainState1 = ⟨Auth.emptyDoc, some 0⟩ ∧
    Auth.chainState2 = ⟨Auth.emptyDoc, some 10⟩ ∧
    ((10 : Int) - 0 < 3600) ∧ ((20 : Int) - 10 < 3600) ∧
    (Auth.validate_token Auth.cfg0 Auth.chainState1 Auth.tokKidK 10
        (some Auth.emptyDoc)).fetchCount +
      (Auth.validate_token Auth.cfg0 Auth.chainState2 Auth.tokKidK 20
        (some Auth.emptyDoc)).fetchCount = 2 := by
  refine ⟨rfl, rfl, by decide, by decide, rfl⟩

/-- C3 (amended): provided the fetched key set is a non-empty JSON object, a pair of
validations whose second call falls within 3600 s of the first issues at most one
outbound fetch in total; and every validation that reaches the key lookup (its token
header decodes) while the cache is stale, never filled, or empty issues exactly one
fresh outbound fetch, after which the cache holds the fetched document with its fetch
timestamp. -/
theorem C3_cache_fetch_discipline
    (cfg : Auth.Config) (sa sb : Auth.AuthState) (tok1 tok2 tok : Auth.Token)
    (t1 t2 now : Int) (f2 fb : Option Auth.JWKSDoc) (d1 doc : Auth.JWKSDoc)
    (hd1 : d1.nonempty = true) (hwin : t2 - t1 < 3600)
    (hstale : Auth.cacheFresh sb now = false) (hok : tok.header_ok = true)
    (hfb : fb = some doc) :
    (Auth.validate_token cfg sa tok1 t1 (some d1)).fetchCount +
      (Auth.validate_token cfg (Auth.validate_token cfg sa tok1 t1 (some d1)).state
        tok2 t2 f2).fetchCount ≤ 1 ∧
    (Auth.validate_token cfg sb tok now fb).fetchCount = 1 ∧
    (Auth.validate_token cfg sb tok now fb).state = ⟨doc, some now⟩ := by
  refine ⟨?_, ?_, ?_⟩
  · cases h1 : tok1.header_ok
    · obtain ⟨e1s, e1c⟩ := validate_effect_of_header_bad cfg sa tok1 t1 (some d1) h1
      rw [e1s, e1c]
      simpa using validate_fetch_le_one cfg sa tok2 t2 f2
    · obtain ⟨e1s, e1c⟩ := validate_effect_of_header_ok cfg sa tok1 t1 (some d1) h1
      rw [e1s, e1c]
      by_cases hf : Auth.cacheFresh sa t1 = true
      · have g1 : Auth.get_jwks sa t1 (some d1) = ⟨.ok sa.jwks_cache, sa, 0⟩ := by
          simp [Auth.get_jwks, hf]
        rw [g1]
        simpa using validate_fetch_le_one cfg sa tok2 t2 f2
      · have g1 : Auth.get_jwks sa t1 (some d1) = ⟨.ok d1, ⟨d1, some t1⟩, 1⟩ := by
          simp [Auth.get_jwks, hf]
        rw [g1]
        have hf2 : Auth.cacheFresh ⟨d1, some t1⟩ t2 = true := by
          simp [Auth.cacheFresh, hd1, hwin]
        cases h2 : tok2.header_ok
        · obtain ⟨-, e2c⟩ := validate_effect_of_header_bad cfg ⟨d1, some t1⟩ tok2 t2 f2 h2
          rw [e2c]
        · obtain ⟨-, e2c⟩ := validate_effect_of_header_ok cfg ⟨d1, some t1⟩ tok2 t2 f2 h2
          rw [e2c]
          have g2 : Auth.get_jwks ⟨d1, some t1⟩ t2 f2 = ⟨.ok d1, ⟨d1, some t1⟩, 0⟩ := by
            simp [Auth.get_jwks, hf2]
          rw [g2]
          simp
  · obtain ⟨-, ec⟩ := validate_effect_of_header_ok cfg sb tok now fb hok
    rw [ec]
    simp [Auth.get_jwks, hstale, hfb]
  · obtain ⟨es, -⟩ := validate_effect_of_header_ok cfg sb tok now fb hok
    rw [es]
    simp [Auth.get_jwks, hstale, hfb]

/-- Witness for C3's amended theorem: a pair of validations from the never-filled initial
state at times 0 and 10 with a non-empty fetched key set, and a single validation from
the initial (stale) state at time 50. -/
theorem C3_witness :
    (Auth.validate_token Auth.cfg0 Auth.initState Auth.tokKidK 0
        (some Auth.docA)).fetchCount +
      (Auth.validate_token Auth.cfg0
        (Auth.validate_token Auth.cfg0 Auth.initState Auth.tokKidK 0
          (some Auth.docA)).state
        Auth.tokKidK 10 none).fetchCount ≤ 1 ∧
    (Auth.validate_token Auth.cfg0 Auth.initState Auth.tokKidK 50
        (some Auth.docA)).fetchCount = 1 ∧
    (Auth.validate_token Auth.cfg0 Auth.initState Auth.tokKidK 50
        (some Auth.docA)).state = ⟨Auth.docA, some 50⟩ :=
  C3_cache_fetch_discipline Auth.cfg0 Auth.initState Auth.initState Auth.tokKidK
    Auth.tokKidK Auth.tokKidK 0 10 50 none (some Auth.docA) Auth.docA Auth.docA
    rfl (by decide) rfl rfl rfl

/-- C4 counterexample: a token under a known kid whose `exp` (5) is far in the past at
time 100 but whose signature does not verify is rejected with the token-invalid detail,
not the token-expired one: PyJWT verifies the signature before validating expiry, so the
claim's "regardless of whether the token's signature is valid" fails. -/
theorem C4_counterexample :
    Auth.tokExpiredBadSig.claims.exp = some 5 ∧ ((5 : Int) ≤ 100) ∧
    Auth.errorOf (Auth.validate_token Auth.cfg0 Auth.stateA Auth.tokExpiredBadSig
        100 none) = some ⟨401, "Token invalide"⟩ ∧
    Auth.errorOf (Auth.validate_token Auth.cfg0 Auth.stateA Auth.tokExpiredBadSig
        100 none) ≠ some ⟨401, "Token expiré"⟩ := by
  refine ⟨rfl, by decide, rfl, by decide⟩

/-- C4 (amended): every token whose decoded `exp` is not strictly in the future is
rejected with HTTP 401 — with the distinct token-expired detail whenever its signature
verifies under the located key (whatever its audience and issuer claims), and with the
token-invalid detail when the signature does not verify, since the signature is checked
first. -/
theorem C4_expired_rejected (cfg : Auth.Config) (s : Auth.AuthState) (tok : Auth.Token)
    (now e : Int) (f : Option Auth.JWKSDoc) (jwks : Auth.JWKSDoc) (pk : String)
    (hok : tok.header_ok = true)
    (hg : (Auth.get_jwks s now f).result = .ok jwks)
    (hp : Auth.get_public_key tok.kid jwks = .ok pk)
    (halg : tok.alg = "RS256")
    (hexp : tok.claims.exp = some e) (hle : e ≤ now) :
    (tok.sigKey = some pk →
      Auth.errorOf (Auth.validate_token cfg s tok now f) =
        some ⟨401, "Token expiré"⟩) ∧
    (tok.sigKey ≠ some pk →
      Auth.errorOf (Auth.validate_token cfg s tok now f) =
        some ⟨401, "Token invalide"⟩) := by
  constructor <;> intro hsig <;>
    simp [Auth.validate_token, hok, hg, hp, Auth.jwt_decode, halg, hexp, hle, hsig,
      Auth.errorOf]

/-- Witness for C4's amended theorem at a concrete expired, correctly signed token. -/
theorem C4_witness :
    (Auth.tokExpiredGoodSig.sigKey = some "pemA" →
      Auth.errorOf (Auth.validate_token Auth.cfg0 Auth.stateA Auth.tokExpiredGoodSig
        100 none) = some ⟨401, "Token expiré"⟩) ∧
    (Auth.tokExpiredGoodSig.sigKey ≠ some "pemA" →
      Auth.errorOf (Auth.validate_token Auth.cfg0 Auth.stateA Auth.tokExpiredGoodSig
        100 none) = some ⟨401, "Token invalide"⟩) :=
  C4_expired_rejected Auth.cfg0 Auth.stateA Auth.tokExpiredGoodSig 100 5 none
    Auth.docA "pemA" rfl rfl rfl rfl rfl (by decide)
